import Mathlib

/-!
Shallow embedding of the midas-protocol backend core
(`src/backend/memory.py`, `src/backend/application.py`,
`src/backend/base_agent.py`, `src/backend/llm_provider.py`)
and proofs about the claims of the specification.
-/

namespace Midas

/-- Python truthiness of an optional string (`if s:`): `None` and the empty
string are falsy, every other string is truthy. -/
def strTruthy : Option String → Bool
  | none => false
  | some s => s != ""

theorem strTruthy_none : strTruthy none = false := rfl

theorem strTruthy_some (s : String) : strTruthy (some s) = (s != "") := rfl

/-! ## Bounded memory (`src/backend/memory.py`) -/

/-- One entry of the memory buffer: the dicts `{"role": role, "content": content}`
appended by `TokenBufferMemory.add_message`. -/
structure MemMsg where
  role : String
  content : String
deriving DecidableEq, Repr

/-- State of `TokenBufferMemory`: the configured `max_tokens` budget and the
retained `messages` list.  The tiktoken tokenizer is an external library, so
the token-count function (`_count_tokens`) is a parameter `count` of the
operations below; `_count_tokens` is total (it falls back to 0 on any
encoding error), which is why `count` is a plain function. -/
structure TokenBufferMemory where
  max_tokens : Nat
  messages : List MemMsg
deriving DecidableEq, Repr

/-- `sum(self._count_tokens(m["content"]) for m in self.messages)`. -/
def bufferTokens (count : String → Nat) (msgs : List MemMsg) : Nat :=
  (msgs.map (fun m => count m.content)).sum

/-- `TokenBufferMemory._evict_if_needed`: while more than one message is
retained, if the token total is within `max_tokens` stop, otherwise pop the
oldest message (index 0) and repeat. -/
def evict_if_needed (count : String → Nat) (maxTok : Nat) : List MemMsg → List MemMsg
  | [] => []
  | [m] => [m]
  | m :: m2 :: rest =>
    if bufferTokens count (m :: m2 :: rest) ≤ maxTok then m :: m2 :: rest
    else evict_if_needed count maxTok (m2 :: rest)

/-- `TokenBufferMemory.add_message`: append the new message, then evict. -/
def TokenBufferMemory.add_message (count : String → Nat) (mem : TokenBufferMemory)
    (role : String) (content : String) : TokenBufferMemory :=
  { mem with messages := evict_if_needed count mem.max_tokens (mem.messages ++ [⟨role, content⟩]) }

/-- A fresh `TokenBufferMemory(max_tokens)`. -/
def TokenBufferMemory.init (maxTok : Nat) : TokenBufferMemory :=
  ⟨maxTok, []⟩

/-- Folding a whole sequence of `add_message` calls over a fresh buffer. -/
def addAll (count : String → Nat) (maxTok : Nat) (ms : List MemMsg) : TokenBufferMemory :=
  ms.foldl (fun mem m => mem.add_message count m.role m.content) (TokenBufferMemory.init maxTok)

/-! ### Lemmas about eviction -/

theorem evict_if_needed_suffix (count : String → Nat) (maxTok : Nat) :
    ∀ l : List MemMsg, evict_if_needed count maxTok l <:+ l := by
  intro l
  induction l with
  | nil => simp [evict_if_needed]
  | cons m t ih =>
    cases t with
    | nil => simp [evict_if_needed]
    | cons m2 rest =>
      rw [evict_if_needed]
      split
      · exact List.suffix_refl _
      · exact List.IsSuffix.trans ih (List.suffix_cons m (m2 :: rest))

theorem evict_if_needed_ne_nil (count : String → Nat) (maxTok : Nat) :
    ∀ l : List MemMsg, l ≠ [] → evict_if_needed count maxTok l ≠ [] := by
  intro l
  induction l with
  | nil => intro h; exact absurd rfl h
  | cons m t ih =>
    intro _
    cases t with
    | nil => simp [evict_if_needed]
    | cons m2 rest =>
      rw [evict_if_needed]
      split
      · simp
      · exact ih (by simp)

theorem evict_if_needed_getLast? (count : String → Nat) (maxTok : Nat) :
    ∀ l : List MemMsg, l ≠ [] → (evict_if_needed count maxTok l).getLast? = l.getLast? := by
  intro l
  induction l with
  | nil => intro h; exact absurd rfl h
  | cons m t ih =>
    intro _
    cases t with
    | nil => simp [evict_if_needed]
    | cons m2 rest =>
      rw [evict_if_needed]
      split
      · rfl
      · rw [ih (by simp)]
        exact List.getLast?_cons_cons.symm

theorem evict_if_needed_bound (count : String → Nat) (maxTok : Nat) :
    ∀ l : List MemMsg,
      bufferTokens count (evict_if_needed count maxTok l) ≤ maxTok ∨
        (evict_if_needed count maxTok l).length = 1 := by
  intro l
  induction l with
  | nil => left; simp [evict_if_needed, bufferTokens]
  | cons m t ih =>
    cases t with
    | nil => right; simp [evict_if_needed]
    | cons m2 rest =>
      rw [evict_if_needed]
      split
      · left; assumption
      · exact ih

theorem add_message_messages (count : String → Nat) (mem : TokenBufferMemory)
    (role content : String) :
    (mem.add_message count role content).messages =
      evict_if_needed count mem.max_tokens (mem.messages ++ [⟨role, content⟩]) := rfl

theorem addAll_concat (count : String → Nat) (maxTok : Nat) (ms : List MemMsg) (m : MemMsg) :
    addAll count maxTok (ms ++ [m]) =
      (addAll count maxTok ms).add_message count m.role m.content := by
  simp [addAll, List.foldl_append]

theorem addAll_max_tokens (count : String → Nat) (maxTok : Nat) (ms : List MemMsg) :
    (addAll count maxTok ms).max_tokens = maxTok := by
  induction ms using List.reverseRecOn with
  | nil => rfl
  | append_singleton ms m ih =>
    rw [addAll_concat]
    simpa [TokenBufferMemory.add_message] using ih

/-! ### Claim C1 -/

/-- **C1.** For every sequence of `add_message` calls on a fresh
`TokenBufferMemory`, the retained history is a contiguous suffix of the full
appended sequence (only oldest messages are removed), its cumulative
estimated token count is within `max_tokens` unless the retained suffix has
length 1, and the most recently appended message is never evicted, so the
history is nonempty after every add. -/
theorem memory_c1 (count : String → Nat) (maxTok : Nat) (ms : List MemMsg) (h : ms ≠ []) :
    (addAll count maxTok ms).messages <:+ ms ∧
    (bufferTokens count (addAll count maxTok ms).messages ≤ maxTok ∨
      (addAll count maxTok ms).messages.length = 1) ∧
    (addAll count maxTok ms).messages.getLast? = ms.getLast? ∧
    1 ≤ (addAll count maxTok ms).messages.length := by
  induction ms using List.reverseRecOn with
  | nil => exact absurd rfl h
  | append_singleton ms m ih =>
    rw [addAll_concat]
    have hmax := addAll_max_tokens count maxTok ms
    rw [add_message_messages, hmax]
    set prev := addAll count maxTok ms with hprev
    have hsuf : prev.messages <:+ ms := by
      rcases eq_or_ne ms ([] : List MemMsg) with hms | hms
      · subst hms
        simp [hprev, addAll, TokenBufferMemory.init]
      · exact (ih hms).1
    constructor
    · have h1 : evict_if_needed count maxTok (prev.messages ++ [⟨m.role, m.content⟩]) <:+
          prev.messages ++ [⟨m.role, m.content⟩] := evict_if_needed_suffix count maxTok _
      have h2 : prev.messages ++ [⟨m.role, m.content⟩] <:+ ms ++ [m] := by
        obtain ⟨t, ht⟩ := hsuf
        exact ⟨t, by simp [← ht]⟩
      exact h1.trans h2
    refine ⟨evict_if_needed_bound count maxTok _, ?_, ?_⟩
    · rw [evict_if_needed_getLast? count maxTok _ (by simp)]
      simp
    · have hne := evict_if_needed_ne_nil count maxTok (prev.messages ++ [⟨m.role, m.content⟩]) (by simp)
      exact List.length_pos.mpr hne

/-- Concrete message sequence used to witness `memory_c1`. -/
def demoMsgs : List MemMsg :=
  [⟨"user", "first message"⟩, ⟨"assistant", "second"⟩, ⟨"user", "third one"⟩]

/-- Witness for C1: `memory_c1` applied at a concrete sequence. -/
theorem memory_c1_witness :
    (addAll String.length 10 demoMsgs).messages <:+ demoMsgs ∧
    (bufferTokens String.length (addAll String.length 10 demoMsgs).messages ≤ 10 ∨
      (addAll String.length 10 demoMsgs).messages.length = 1) ∧
    (addAll String.length 10 demoMsgs).messages.getLast? = demoMsgs.getLast? ∧
    1 ≤ (addAll String.length 10 demoMsgs).messages.length :=
  memory_c1 String.length 10 demoMsgs (by simp [demoMsgs])

/-! ## Provider manager (`src/backend/application.py`) -/

/-- `ProviderStatus` enum. -/
inductive ProviderStatus where
  | ACTIVE
  | DOWN
  | QUOTA_EXHAUSTED
  | ERROR
deriving DecidableEq, Repr

/-- `ProviderState` dataclass.  `time.time()` timestamps are modelled as
rationals. -/
structure ProviderState where
  name : String
  status : ProviderStatus
  reset_time : ℚ
deriving DecidableEq, Repr

/-- The provider dict built in `ProviderManager.__init__`, in insertion
order. -/
def initProviders : List ProviderState :=
  [⟨"groq", .ACTIVE, 0⟩, ⟨"gemini", .ACTIVE, 0⟩]

/-- `ProviderManager.update_status` at current time `now`: set the named
record's status; a `QUOTA_EXHAUSTED` mark resets in 24 hours, a `DOWN` mark
in 60 seconds, any other status keeps the old `reset_time`. -/
def update_status (now : ℚ) (pm : List ProviderState) (provider_name : String)
    (status : ProviderStatus) : List ProviderState :=
  pm.map (fun p =>
    if p.name = provider_name then
      { p with
        status := status,
        reset_time :=
          if status = .QUOTA_EXHAUSTED then now + 24 * 60 * 60
          else if status = .DOWN then now + 60
          else p.reset_time }
    else p)

/-- `ProviderManager.get_provider` at current time `now`: scan the records in
declared order, return the first `ACTIVE` one, opportunistically promoting a
`DOWN`/`QUOTA_EXHAUSTED` record whose `reset_time` has elapsed.  Returns the
chosen name (if any) together with the updated record list. -/
def get_provider (now : ℚ) : List ProviderState → Option String × List ProviderState
  | [] => (none, [])
  | p :: rest =>
    if p.status = .ACTIVE then (some p.name, p :: rest)
    else if p.status = .DOWN ∨ p.status = .QUOTA_EXHAUSTED then
      if now > p.reset_time then (some p.name, { p with status := .ACTIVE } :: rest)
      else
        let r := get_provider now rest
        (r.1, p :: r.2)
    else
      let r := get_provider now rest
      (r.1, p :: r.2)

/-- `ProviderManager.is_provider_active` at current time `now`: unknown names
are inactive; a `DOWN`/`QUOTA_EXHAUSTED` record whose `reset_time` has
elapsed is promoted to `ACTIVE` and reported active, otherwise it is
inactive; any other record is active exactly when its status is `ACTIVE`.
Returns the answer together with the updated record list. -/
def is_provider_active (now : ℚ) (pm : List ProviderState) (provider_name : String) :
    Bool × List ProviderState :=
  match pm.find? (fun p => p.name == provider_name) with
  | none => (false, pm)
  | some st =>
    if st.status = .DOWN ∨ st.status = .QUOTA_EXHAUSTED then
      if now > st.reset_time then
        (true, pm.map (fun p => if p.name = provider_name then { p with status := .ACTIVE } else p))
      else (false, pm)
    else (decide (st.status = .ACTIVE), pm)

/-- A record is treated as available by the `get_provider` scan at time `t`:
either `ACTIVE`, or `DOWN`/`QUOTA_EXHAUSTED` with an elapsed `reset_time`. -/
def provAvail (t : ℚ) (p : ProviderState) : Bool :=
  decide (p.status = .ACTIVE) ||
    ((decide (p.status = .DOWN) || decide (p.status = .QUOTA_EXHAUSTED)) && decide (t > p.reset_time))

/-- `find?` helper for a named record. -/
def findProv (pm : List ProviderState) (n : String) : Option ProviderState :=
  pm.find? (fun p => p.name == n)

/-! ### Lemmas about the provider manager -/

theorem findProv_cons (p : ProviderState) (rest : List ProviderState) (n : String) :
    findProv (p :: rest) n = if p.name = n then some p else findProv rest n := by
  by_cases hp : p.name = n
  · rw [if_pos hp]; exact List.find?_cons_of_pos _ (by simp [hp])
  · rw [if_neg hp]; exact List.find?_cons_of_neg _ (by simp [hp])

theorem findProv_map_update (g : ProviderState → ProviderState)
    (hg : ∀ p, (g p).name = p.name) (pm : List ProviderState) (n : String)
    (s : ProviderState) (h : findProv pm n = some s) :
    findProv (pm.map (fun p => if p.name = n then g p else p)) n = some (g s) := by
  induction pm with
  | nil => simp [findProv] at h
  | cons p rest ih =>
    rw [findProv_cons] at h
    rw [List.map_cons, findProv_cons]
    by_cases hp : p.name = n
    · rw [if_pos hp] at h
      obtain rfl : p = s := by injection h
      simp [hp, hg]
    · rw [if_neg hp] at h
      simp only [if_neg hp]
      exact ih h

theorem get_provider_skip (t : ℚ) (p : ProviderState) (rest : List ProviderState)
    (hp : provAvail t p = false) :
    get_provider t (p :: rest) = ((get_provider t rest).1, p :: (get_provider t rest).2) := by
  have h1 : ¬ p.status = .ACTIVE := by
    intro h; rw [provAvail, h] at hp; simp at hp
  rw [get_provider, if_neg h1]
  by_cases hdq : p.status = .DOWN ∨ p.status = .QUOTA_EXHAUSTED
  · have hle : ¬ t > p.reset_time := by
      intro h
      rw [provAvail] at hp
      rcases hdq with hd | hd <;> simp [hd, h] at hp
    rw [if_pos hdq, if_neg hle]
  · rw [if_neg hdq]

theorem get_provider_pre (t : ℚ) (pre : List ProviderState)
    (hpre : ∀ p ∈ pre, provAvail t p = false) (l : List ProviderState) :
    get_provider t (pre ++ l) = ((get_provider t l).1, pre ++ (get_provider t l).2) := by
  induction pre with
  | nil => simp
  | cons p ps ih =>
    rw [List.cons_append, get_provider_skip t p (ps ++ l) (hpre p (by simp)),
      ih (fun q hq => hpre q (by simp [hq]))]
    simp

theorem get_provider_hit (t : ℚ) (s : ProviderState) (post : List ProviderState)
    (hdq : s.status = .DOWN ∨ s.status = .QUOTA_EXHAUSTED) (ht : t > s.reset_time) :
    get_provider t (s :: post) = (some s.name, { s with status := .ACTIVE } :: post) := by
  have hna : ¬ s.status = .ACTIVE := by rcases hdq with h | h <;> simp [h]
  rw [get_provider, if_neg hna, if_pos hdq, if_pos ht]

/-! ### Claim C2 -/

/-- **C2.** Marking a backend `Down` at time `T` sets its `reset_time` to
`T + 60`; marking it `QuotaExhausted` sets it to `T + 24h`.  A liveness read
of a non-`Active` record strictly after `reset_time` promotes it back to
`Active` and treats it as available (`is_provider_active` answers `true`;
`get_provider`, once the scan reaches the record, returns it promoted),
while a read at or before `reset_time` treats it as non-`Active`
(`is_provider_active` answers `false` and leaves the state unchanged;
`get_provider` passes the record over unchanged). -/
theorem provider_c2 (pm : List ProviderState) (n : String) (T t : ℚ) (s : ProviderState)
    (hfind : findProv pm n = some s) :
    (findProv (update_status T pm n .DOWN) n =
        some { s with status := .DOWN, reset_time := T + 60 }) ∧
    (findProv (update_status T pm n .QUOTA_EXHAUSTED) n =
        some { s with status := .QUOTA_EXHAUSTED, reset_time := T + 24 * 60 * 60 }) ∧
    ((s.status = .DOWN ∨ s.status = .QUOTA_EXHAUSTED) →
      (t > s.reset_time →
        (is_provider_active t pm n).1 = true ∧
        findProv (is_provider_active t pm n).2 n = some { s with status := .ACTIVE }) ∧
      (t ≤ s.reset_time → is_provider_active t pm n = (false, pm))) ∧
    (∀ pre post, pm = pre ++ s :: post → (∀ p ∈ pre, provAvail t p = false) →
      (s.status = .DOWN ∨ s.status = .QUOTA_EXHAUSTED) →
      (t > s.reset_time →
        get_provider t pm = (some s.name, pre ++ { s with status := .ACTIVE } :: post)) ∧
      (t ≤ s.reset_time →
        get_provider t pm = ((get_provider t post).1, pre ++ s :: (get_provider t post).2))) := by
  refine ⟨?_, ?_, ?_, ?_⟩
  · rw [show update_status T pm n .DOWN =
        pm.map (fun p => if p.name = n then
          { p with status := ProviderStatus.DOWN, reset_time := T + 60 } else p) from by
      simp [update_status]]
    exact findProv_map_update
      (fun p => { p with status := ProviderStatus.DOWN, reset_time := T + 60 })
      (fun _ => rfl) pm n s hfind
  · rw [show update_status T pm n .QUOTA_EXHAUSTED =
        pm.map (fun p => if p.name = n then
          { p with status := ProviderStatus.QUOTA_EXHAUSTED, reset_time := T + 24 * 60 * 60 }
        else p) from by
      simp [update_status]]
    exact findProv_map_update
      (fun p => { p with status := ProviderStatus.QUOTA_EXHAUSTED, reset_time := T + 24 * 60 * 60 })
      (fun _ => rfl) pm n s hfind
  · intro hdq
    have hactive : is_provider_active t pm n =
        (if s.status = .DOWN ∨ s.status = .QUOTA_EXHAUSTED then
          if t > s.reset_time then
            (true, pm.map (fun p => if p.name = n then { p with status := .ACTIVE } else p))
          else (false, pm)
        else (decide (s.status = .ACTIVE), pm)) := by
      unfold is_provider_active
      rw [show pm.find? (fun p => p.name == n) = some s from hfind]
    constructor
    · intro ht
      rw [hactive, if_pos hdq, if_pos ht]
      exact ⟨rfl, findProv_map_update
        (fun p => { p with status := ProviderStatus.ACTIVE }) (fun _ => rfl) pm n s hfind⟩
    · intro ht
      rw [hactive, if_pos hdq, if_neg (not_lt.mpr ht)]
  · intro pre post hpm hpre hdq
    subst hpm
    constructor
    · intro ht
      rw [get_provider_pre t pre hpre, get_provider_hit t s post hdq ht]
    · intro ht
      have hs : provAvail t s = false := by
        have hna : ¬ s.status = .ACTIVE := by rcases hdq with h | h <;> simp [h]
        simp [provAvail, hna, not_lt.mpr ht]
      rw [get_provider_pre t pre hpre, get_provider_skip t s post hs]

/-- Concrete provider table used to witness `provider_c2`: `groq` was marked
`Down` and has `reset_time = 160`. -/
def provW : List ProviderState :=
  [⟨"groq", .DOWN, 160⟩, ⟨"gemini", .ACTIVE, 0⟩]

/-- Witness for C2: `provider_c2` applied at a concrete table; a read at
`t = 161 > 160` reactivates `groq`, a read at `t = 160` does not. -/
theorem provider_c2_witness :
    findProv provW "groq" = some ⟨"groq", ProviderStatus.DOWN, 160⟩ ∧
    (is_provider_active 161 provW "groq").1 = true ∧
    is_provider_active 160 provW "groq" = (false, provW) ∧
    findProv (update_status 100 provW "groq" .DOWN) "groq" =
      some ⟨"groq", ProviderStatus.DOWN, 160⟩ := by
  have h1 := provider_c2 provW "groq" 100 161 ⟨"groq", .DOWN, 160⟩ rfl
  have h2 := provider_c2 provW "groq" 100 160 ⟨"groq", .DOWN, 160⟩ rfl
  refine ⟨rfl, (((h1.2.2.1 (Or.inl rfl)).1 (by norm_num))).1, (h2.2.2.1 (Or.inl rfl)).2 le_rfl, ?_⟩
  have := h1.1
  simpa [show (100 : ℚ) + 60 = 160 by norm_num] using this

/-! ## Chat endpoint (`src/backend/application.py`, `chat_endpoint`)

The concrete LLM clients are external, so the composite
`manager_agent.process_query(query, get_provider_instance(name, key))` is
modelled by an oracle `attempt : name → key → Except PyExc String` giving
the content of the returned `AgentResponse`, or the exception the call
raised.  The exception taxonomy follows `src/backend/llm_provider.py`:
`QuotaExhaustedError` and `ProviderDownError` are subclasses of
`ProviderError`, which is an `Exception`; `providerError` stands for a
`ProviderError` that is neither subclass, `otherExc` for any other
exception. -/

/-- Exceptions observable by `chat_endpoint`. -/
inductive PyExc where
  | quotaExhausted (msg : String)
  | providerDown (msg : String)
  | providerError (msg : String)
  | otherExc (msg : String)
deriving DecidableEq, Repr

/-- `str(e)` of an exception. -/
def PyExc.message : PyExc → String
  | .quotaExhausted m => m
  | .providerDown m => m
  | .providerError m => m
  | .otherExc m => m

/-- Python `str.lower()` (provider names are ASCII). -/
def pyLower (s : String) : String := String.mk (s.data.map Char.toLower)

/-- Python `str.upper()` (provider names are ASCII). -/
def pyUpper (s : String) : String := String.mk (s.data.map Char.toUpper)

/-- `ChatRequest` pydantic model. -/
structure ChatRequest where
  query : String
  provider : Option String := none
  api_key : Option String := none
deriving DecidableEq, Repr

/-- `ChatResponse` pydantic model (all optional fields default to `None`). -/
structure ChatResponse where
  success : Bool
  response : Option String := none
  provider_used : Option String := none
  agent_used : Option String := none
  error_type : Option String := none
  required_provider : Option String := none
  message : Option String := none
deriving DecidableEq, Repr

/-- `has_server_key`: os.getenv is modelled by `env`. -/
def has_server_key (env : String → Option String) (n : String) : Bool :=
  (n == "groq" && strTruthy (env "GROQ_API_KEY")) ||
    (n == "gemini" && strTruthy (env "GEMINI_API_KEY"))

/-- `os.getenv(f"{name.upper()}_API_KEY")`. -/
def server_key (env : String → Option String) (n : String) : Option String :=
  env (pyUpper n ++ "_API_KEY")

/-- The oracle for one manager run against a named backend with a resolved
key. -/
def AttemptOracle : Type := String → String → Except PyExc String

/-- CASE 1 of `chat_endpoint` (manual override: the request names backend
`p`).  Returns the response, the list of `(backend, key)` pairs for which
`manager_agent.process_query` was actually invoked, and the final provider
table. -/
def chat_preference (now : ℚ) (env : String → Option String) (attempt : AttemptOracle)
    (req : ChatRequest) (p : String) (pm : List ProviderState) :
    ChatResponse × List (String × String) × List ProviderState :=
  let target := pyLower p
  let act := is_provider_active now pm target
  if !act.1 then
    ({ success := false, error_type := some "provider_down", required_provider := some target,
       message := some ("Requested provider '" ++ target ++ "' is currently unavailable (Down/Quota).") },
     [], act.2)
  else
    let final_key0 : Option String := if strTruthy req.api_key then req.api_key else none
    let final_key : Option String :=
      if !(strTruthy final_key0) && has_server_key env target then server_key env target
      else final_key0
    if !(strTruthy final_key) then
      ({ success := false, error_type := some "needs_key", required_provider := some target,
         message := some ("API Key missing for " ++ target ++ ".") }, [], act.2)
    else
      let k := final_key.getD ""
      match attempt target k with
      | .ok content =>
        ({ success := true, response := some content, provider_used := some target,
           agent_used := some "Manager" }, [(target, k)], act.2)
      | .error (.quotaExhausted msg) =>
        ({ success := false, error_type := some "provider_down", message := some msg },
         [(target, k)], update_status now act.2 target .QUOTA_EXHAUSTED)
      | .error (.providerDown msg) =>
        ({ success := false, error_type := some "provider_down", message := some msg },
         [(target, k)], update_status now act.2 target .QUOTA_EXHAUSTED)
      | .error (.providerError msg) =>
        ({ success := false, error_type := some "server_error", message := some msg },
         [(target, k)], act.2)
      | .error (.otherExc msg) =>
        ({ success := false, error_type := some "server_error", message := some msg },
         [(target, k)], act.2)

/-- CASE 2 of `chat_endpoint` (auto-pilot `while True` loop).  The loop is
given fuel; `none` means the fuel ran out before the loop returned (with
frozen time every failing iteration deactivates a provider, so any fuel
above the table length is enough). -/
def chat_auto (now : ℚ) (env : String → Option String) (attempt : AttemptOracle) :
    Nat → List ProviderState → List (String × String) →
    Option (ChatResponse × List (String × String) × List ProviderState)
  | 0, _, _ => none
  | fuel + 1, pm, log =>
    let gp := get_provider now pm
    match gp.1 with
    | none =>
      some ({ success := false, error_type := some "all_down",
              message := some "All providers are currently down or exhausted." }, log, gp.2)
    | some current =>
      let final_key : Option String :=
        if has_server_key env current then server_key env current else none
      if !(strTruthy final_key) then
        some ({ success := false, error_type := some "needs_key",
                required_provider := some current,
                message := some ("Auto-switching to " ++ current ++ ", but API Key is missing.") },
              log, gp.2)
      else
        let k := final_key.getD ""
        match attempt current k with
        | .ok content =>
          some ({ success := true, response := some content, provider_used := some current,
                  agent_used := some "Manager" }, log ++ [(current, k)], gp.2)
        | .error (.quotaExhausted _) =>
          chat_auto now env attempt fuel (update_status now gp.2 current .QUOTA_EXHAUSTED)
            (log ++ [(current, k)])
        | .error (.providerDown _) =>
          chat_auto now env attempt fuel (update_status now gp.2 current .DOWN)
            (log ++ [(current, k)])
        | .error (.providerError msg) =>
          some ({ success := false, error_type := some "server_error", message := some msg },
                log ++ [(current, k)], gp.2)
        | .error (.otherExc msg) =>
          some ({ success := false, error_type := some "server_error", message := some msg },
                log ++ [(current, k)], gp.2)

/-- `chat_endpoint`: manual override when the request's `provider` field is
truthy, auto-pilot otherwise. -/
def chat_endpoint (now : ℚ) (env : String → Option String) (attempt : AttemptOracle)
    (req : ChatRequest) (pm : List ProviderState) (fuel : Nat) :
    Option (ChatResponse × List (String × String) × List ProviderState) :=
  if strTruthy req.provider then
    some (chat_preference now env attempt req (req.provider.getD "") pm)
  else
    chat_auto now env attempt fuel pm []

/-! ### Claim C3 -/

/-- **C3.** In preference mode, when the named backend is not `Active` after
time-based recovery, the endpoint returns a `provider_down` failure naming
that backend, invokes no backend (empty attempt log), and never substitutes
another backend; moreover any preference-mode run invokes the backend at
most once (no retry loop). -/
theorem preference_c3 (now : ℚ) (env : String → Option String) (attempt : AttemptOracle)
    (req : ChatRequest) (pm : List ProviderState) (p : String) (fuel : Nat)
    (hp : req.provider = some p) (hpt : strTruthy req.provider = true)
    (hinactive : (is_provider_active now pm (pyLower p)).1 = false) :
    chat_endpoint now env attempt req pm fuel =
      some ({ success := false, error_type := some "provider_down",
              required_provider := some (pyLower p),
              message := some ("Requested provider '" ++ pyLower p ++
                "' is currently unavailable (Down/Quota).") },
            [], (is_provider_active now pm (pyLower p)).2) ∧
    (∀ q pm2, ((chat_preference now env attempt q p pm2).2.1).length ≤ 1) := by
  constructor
  · rw [chat_endpoint, if_pos hpt, hp]
    simp [chat_preference, hinactive]
  · intro q pm2
    simp only [chat_preference]
    repeat' split
    all_goals simp

/-- Provider table for the C3 witness: `groq` is `Down` until time 160. -/
def provC3 : List ProviderState :=
  [⟨"groq", .DOWN, 160⟩, ⟨"gemini", .ACTIVE, 0⟩]

/-- Witness for C3: a request naming `Groq` at time 100 (before the reset
time) gets a `provider_down` failure with no backend call. -/
theorem preference_c3_witness :
    chat_endpoint 100 (fun _ => none) (fun _ _ => Except.ok "x")
        ⟨"hello", some "Groq", none⟩ provC3 1 =
      some ({ success := false, error_type := some "provider_down",
              required_provider := some (pyLower "Groq"),
              message := some ("Requested provider '" ++ pyLower "Groq" ++
                "' is currently unavailable (Down/Quota).") },
            [], (is_provider_active 100 provC3 (pyLower "Groq")).2) ∧
    (∀ q pm2,
      ((chat_preference 100 (fun _ => none) (fun _ _ => Except.ok "x") q "Groq" pm2).2.1).length ≤ 1) :=
  preference_c3 100 (fun _ => none) (fun _ _ => Except.ok "x")
    ⟨"hello", some "Groq", none⟩ provC3 "Groq" 1 rfl rfl (by decide)

/-! ### Claim C4 -/

/-- Environment with server keys for both backends (C4 scenario). -/
def envBoth : String → Option String :=
  fun k => if k = "GROQ_API_KEY" then some "gk"
           else if k = "GEMINI_API_KEY" then some "gmk" else none

/-- Oracle for the C4 scenario: the `groq` attempt raises a generic
`ProviderError` (neither `QuotaExhaustedError` nor `ProviderDownError`),
while `gemini` would succeed. -/
def attemptC4 : AttemptOracle :=
  fun n _ => if n = "groq" then Except.error (.providerError "boom")
             else Except.ok "ok-from-gemini"

/-- **C4 counterexample.** In automatic mode, a generic `ProviderError`
from the first candidate does NOT mark it `Down` and does NOT continue the
scan: the request terminates with a `server_error` failure, the provider
table is unchanged (`groq` still `Active`), and `gemini` (healthy and keyed)
is never attempted — contradicting the claim. -/
theorem auto_generic_error_counterexample :
    chat_endpoint 0 envBoth attemptC4 ⟨"q", none, none⟩ initProviders 3 =
      some ({ success := false, error_type := some "server_error", message := some "boom" },
            [("groq", "gk")], initProviders) ∧
    (findProv initProviders "groq").map ProviderState.status = some .ACTIVE := by
  constructor
  · rfl
  · rfl

/-- **C4 (amended).** In automatic mode, when the attempt against the
candidate chosen by `get_provider` fails with a generic `ProviderError`
that is neither `QuotaExhausted` nor `Down`, the request terminates at once
with a `server_error` structured failure carrying the error message; the
backend is NOT marked `Down` (the table stays as `get_provider` left it)
and the scan does NOT continue to the next candidate (exactly this one
attempt is logged). -/
theorem auto_generic_error_c4 (now : ℚ) (env : String → Option String)
    (attempt : AttemptOracle) (pm pm1 : List ProviderState) (c m : String)
    (fuel : Nat) (log : List (String × String))
    (hget : get_provider now pm = (some c, pm1))
    (hsk : has_server_key env c = true)
    (hkey : strTruthy (server_key env c) = true)
    (hatt : attempt c ((server_key env c).getD "") = .error (.providerError m)) :
    chat_auto now env attempt (fuel + 1) pm log =
      some ({ success := false, error_type := some "server_error", message := some m },
            log ++ [(c, (server_key env c).getD "")], pm1) := by
  rw [chat_auto]
  simp only [hget, hsk, if_true, hkey, hatt, Bool.not_true]
  simp [hkey]

/-- Witness for the amended C4: the concrete scenario of the
counterexample, driven through `auto_generic_error_c4`. -/
theorem auto_generic_error_c4_witness :
    chat_auto 0 envBoth attemptC4 (2 + 1) initProviders [] =
      some ({ success := false, error_type := some "server_error", message := some "boom" },
            [] ++ [("groq", (server_key envBoth "groq").getD "")], initProviders) :=
  auto_generic_error_c4 0 envBoth attemptC4 initProviders initProviders "groq" "boom" 2 []
    rfl rfl rfl rfl

/-! ### Claim C8 -/

/-- **C8 counterexample.** In automatic mode the per-request credential is
ignored: with `api_key = "userkey"` supplied and no ambient server key, the
request fails with `needs_key` and no backend call — although a per-request
credential WAS available, contradicting "a per-request credential, when
supplied, overrides the ambient one ... if neither credential is
available ... fails". -/
theorem credential_c8_counterexample :
    chat_endpoint 0 (fun _ => none) (fun _ _ => Except.ok "unused")
        ⟨"q", none, some "userkey"⟩ initProviders 1 =
      some ({ success := false, error_type := some "needs_key",
              required_provider := some "groq",
              message := some "Auto-switching to groq, but API Key is missing." },
            [], initProviders) := rfl

/-- **C8 (amended).** Credential resolution happens only after health
routing picks a candidate.  In preference mode a per-request credential,
when supplied, overrides the ambient one (the single attempt uses it), and
when neither is available the request fails with a `needs_key` signal
naming that backend and no backend call.  In automatic mode the per-request
credential is ignored (the outcome is independent of it): only the ambient
server credential is consulted, and when it is missing for the selected
candidate the request fails with `needs_key` naming that candidate and no
backend call. -/
theorem credential_c8_amended (now : ℚ) (env : String → Option String)
    (attempt : AttemptOracle) (pm : List ProviderState) (fuel : Nat) :
    (∀ (req : ChatRequest) (p : String), req.provider = some p →
      (is_provider_active now pm (pyLower p)).1 = true →
      strTruthy req.api_key = true →
      (chat_preference now env attempt req p pm).2.1 = [(pyLower p, req.api_key.getD "")]) ∧
    (∀ (req : ChatRequest) (p : String), req.provider = some p →
      (is_provider_active now pm (pyLower p)).1 = true →
      strTruthy req.api_key = false →
      has_server_key env (pyLower p) = false →
      chat_preference now env attempt req p pm =
        ({ success := false, error_type := some "needs_key",
           required_provider := some (pyLower p),
           message := some ("API Key missing for " ++ pyLower p ++ ".") },
         [], (is_provider_active now pm (pyLower p)).2)) ∧
    (∀ (q : String) (prov k1 k2 : Option String), strTruthy prov = false →
      chat_endpoint now env attempt ⟨q, prov, k1⟩ pm fuel =
        chat_endpoint now env attempt ⟨q, prov, k2⟩ pm fuel) ∧
    (∀ (c : String) (pm1 : List ProviderState) (log : List (String × String)),
      get_provider now pm = (some c, pm1) →
      has_server_key env c = false →
      chat_auto now env attempt (fuel + 1) pm log =
        some ({ success := false, error_type := some "needs_key",
                required_provider := some c,
                message := some ("Auto-switching to " ++ c ++ ", but API Key is missing.") },
              log, pm1)) := by
  refine ⟨?_, ?_, ?_, ?_⟩
  · intro req p _ hact hkey
    simp only [chat_preference, hact, hkey]
    simp only [if_true, Bool.not_true, Bool.false_and, Bool.false_eq_true, if_false, hkey]
    split <;> simp
  · intro req p _ hact hkey hsk
    simp [chat_preference, hact, hkey, hsk, strTruthy_none]
  · intro q prov k1 k2 hprov
    rw [chat_endpoint, chat_endpoint]
    simp only [hprov]
    rfl
  · intro c pm1 log hget hsk
    rw [chat_auto]
    simp [hget, hsk, strTruthy]

/-- Witness for the amended C8, applied at concrete inputs: preference mode
with a supplied per-request key uses exactly that key; automatic mode with
a missing server key fails with `needs_key` for the scanned candidate. -/
theorem credential_c8_amended_witness :
    (chat_preference 0 (fun _ => none) (fun _ _ => Except.ok "fine")
        ⟨"q", some "groq", some "userkey"⟩ "groq" initProviders).2.1 =
      [(pyLower "groq", (some "userkey" : Option String).getD "")] ∧
    chat_auto 0 (fun _ => none) (fun _ _ => Except.ok "fine") (0 + 1) initProviders [] =
      some ({ success := false, error_type := some "needs_key",
              required_provider := some "groq",
              message := some ("Auto-switching to " ++ "groq" ++ ", but API Key is missing.") },
            [], initProviders) := by
  constructor
  · exact (credential_c8_amended 0 (fun _ => none) (fun _ _ => Except.ok "fine")
      initProviders 1).1 ⟨"q", some "groq", some "userkey"⟩ "groq" rfl rfl rfl
  · exact (credential_c8_amended 0 (fun _ => none) (fun _ _ => Except.ok "fine")
      initProviders 0).2.2.2 "groq" initProviders [] rfl rfl

/-! ## Agents (`src/backend/base_agent.py`)

Provider responses (`LLMResponse`), tool calls and the conversation records
the loops append.  Tool arguments are string-valued dicts (`args`); a tool's
raw result is either a Python string or a non-string value carried together
with its `json.dumps` serialization (`json` is the standard library, outside
the embedded core). -/

/-- Python `str.startswith`. -/
def pyStartsWith (s pre : String) : Bool := List.isPrefixOf pre.data s.data

/-- Helper for `pyReplace`, structural on explicit fuel (enough fuel is the
length of the scanned list). -/
def replaceAllAux (pat rep : List Char) : Nat → List Char → List Char
  | 0, s => s
  | _ + 1, [] => []
  | fuel + 1, c :: rest =>
    if pat.isPrefixOf (c :: rest) ∧ pat ≠ [] then
      rep ++ replaceAllAux pat rep fuel ((c :: rest).drop pat.length)
    else
      c :: replaceAllAux pat rep fuel rest

/-- Python `str.replace(pat, rep)`: replace every occurrence of `pat`,
scanning left to right. -/
def pyReplace (s pat rep : String) : String :=
  String.mk (replaceAllAux pat.data rep.data s.data.length s.data)

/-- A raw tool result (`tool_func(**tool_args)`): a string, or a non-string
value together with its `json.dumps` image. -/
inductive PyVal where
  | vstr (s : String)
  | vother (dump : String)
deriving DecidableEq, Repr

/-- `json.dumps(raw_result) if not isinstance(raw_result, str) else raw_result`. -/
def serializeResult : PyVal → String
  | .vstr s => s
  | .vother d => d

/-- `json.dumps` of a string-valued argument dict. -/
def dumpsArgs (args : List (String × String)) : String :=
  "\x7b" ++ String.intercalate ", "
    (args.map (fun a => "\"" ++ a.1 ++ "\": \"" ++ a.2 ++ "\"")) ++ "\x7d"

/-- A tool call in an `LLMResponse` (`response.tool_call` dict with keys
`name`, `args` and optionally `id`). -/
structure ToolCallReq where
  name : String
  args : List (String × String)
  id : Option String := none
deriving DecidableEq, Repr

/-- `LLMResponse` pydantic model: both fields optional. -/
structure LLMResponse where
  content : Option String := none
  tool_call : Option ToolCallReq := none
deriving DecidableEq, Repr

/-- One entry of an assistant-turn `tool_calls` list. -/
structure ToolCallRec where
  id : String
  name : String
  arguments : String
deriving DecidableEq, Repr

/-- A conversation message as built by the loops (`role`/`content` dict,
possibly with `tool_calls` or `tool_call_id`/`name` keys). -/
structure ChatMsg where
  role : String
  content : Option String := none
  tool_calls : List ToolCallRec := []
  tool_call_id : Option String := none
  name : Option String := none
deriving DecidableEq, Repr

/-- `{"role": "system", "content": c}`. -/
def systemMsg (c : String) : ChatMsg := { role := "system", content := some c }

/-- `{"role": "user", "content": c}` (the content is `None` when a manager
delegates with a missing `query` argument). -/
def userMsg (c : Option String) : ChatMsg := { role := "user", content := c }

/-- The assistant-turn record of a tool call. -/
def assistantCallMsg (id nm args : String) : ChatMsg :=
  { role := "assistant", content := none, tool_calls := [⟨id, nm, args⟩] }

/-- A tool-result record. -/
def toolResultMsg (id nm content : String) : ChatMsg :=
  { role := "tool", content := some content, tool_call_id := some id, name := some nm }

/-- `AgentResponse` dataclass (metadata as a string-valued dict). -/
structure AgentResponse where
  content : String
  metadata : List (String × String) := []
deriving DecidableEq, Repr

/-- A backend (`LLMProvider.get_response`): a function of the conversation
and the offered tool schemas (schemas are opaque to the loops, so they are
carried as the tool names); it may raise. -/
def Provider : Type := List ChatMsg → List String → Except PyExc LLMResponse

/-- A registered tool: its `name` and its `run` behaviour (raises with a
message, or returns a raw value). -/
structure ToolImpl where
  name : String
  run : List (String × String) → Except String PyVal

/-- `SingleAgent` identity: name, system prompt, tool list. -/
structure SingleAgent where
  name : String
  system_prompt : String := "You are a helpful assistant."
  tools : List ToolImpl

/-- `self.tool_registry` lookup (`{tool.name: tool.run for tool in tools}`:
on duplicate names the later tool wins, hence the reversed scan). -/
def toolLookup (ts : List ToolImpl) (n : String) : Option ToolImpl :=
  ts.reverse.find? (fun t => t.name == n)

/-- `self.tool_definitions` as handed to the provider. -/
def SingleAgent.toolDefs (a : SingleAgent) : List String :=
  a.tools.map (fun t => t.name)

/-- The worker loop of `SingleAgent.process_query` (`for turn in range(5)`),
with the remaining turn budget explicit.  Besides the python result it
returns the trace of conversations passed to each provider call (on a
raised provider exception the trace is discarded along with the python
stack). -/
def workerLoop (a : SingleAgent) (provider : Provider) :
    Nat → List ChatMsg → List (List ChatMsg) →
    Except PyExc (AgentResponse × List (List ChatMsg))
  | 0, _, calls => .ok (⟨"Agent timed out.", [("error", "Timeout")]⟩, calls)
  | n + 1, msgs, calls =>
    match provider msgs a.toolDefs with
    | .error e => .error e
    | .ok resp =>
      match resp.tool_call with
      | some tc =>
        let tool_id := tc.id.getD "call_default"
        match toolLookup a.tools tc.name with
        | some t =>
          let result_str :=
            match t.run tc.args with
            | .ok raw => serializeResult raw
            | .error e => "Tool Execution Failed: " ++ e
          workerLoop a provider n
            (msgs ++ [assistantCallMsg tool_id tc.name (dumpsArgs tc.args),
                      toolResultMsg tool_id tc.name result_str])
            (calls ++ [msgs])
        | none =>
          workerLoop a provider n
            (msgs ++ [toolResultMsg tool_id tc.name ("❌ Unknown tool '" ++ tc.name ++ "'")])
            (calls ++ [msgs])
      | none =>
        if strTruthy resp.content then
          .ok (⟨resp.content.getD "", [("final_answer", resp.content.getD "")]⟩, calls ++ [msgs])
        else
          workerLoop a provider n msgs (calls ++ [msgs])

/-- `SingleAgent.process_query`. -/
def SingleAgent.process_query (a : SingleAgent) (provider : Provider)
    (user_query : Option String) :
    Except PyExc (AgentResponse × List (List ChatMsg)) :=
  workerLoop a provider 5 [systemMsg a.system_prompt, userMsg user_query] []

/-- `ManagerAgent` identity: name, sub-agent dict (as an association list in
insertion order) and the shared memory's token counter configuration is
passed to `process_query` separately. -/
structure ManagerAgent where
  name : String
  sub_agents : List (String × SingleAgent)
  system_prompt : String := "You are a manager."

/-- `self.delegation_definitions` as handed to the provider: one
`delegate_to_<name>` schema per sub-agent. -/
def ManagerAgent.delegationDefs (m : ManagerAgent) : List String :=
  m.sub_agents.map (fun a => "delegate_to_" ++ a.1)

/-- The enhanced system prompt built in `ManagerAgent.process_query`. -/
def ManagerAgent.enhancedPrompt (m : ManagerAgent) : String :=
  m.system_prompt ++ "\n" ++
  "You manage a team of agents: [" ++
    String.intercalate ", " (m.sub_agents.map (fun a => a.1)) ++ "].\n" ++
  "Delegate tasks to them using the available tools.\n" ++
  "Combine their outputs into a comprehensive final answer." ++
  "Use the conversation history to answer follow-up questions."

/-- The manager loop of `ManagerAgent.process_query` (`for turn in range(5)`).
Returns the python result, the memory state and the trace of conversations
passed to each of the manager's own provider calls. -/
def managerLoop (m : ManagerAgent) (count : String → Nat) (provider : Provider) :
    Nat → List ChatMsg → TokenBufferMemory → List (List ChatMsg) →
    (Except PyExc AgentResponse) × TokenBufferMemory × List (List ChatMsg)
  | 0, _, mem, calls =>
    (.ok ⟨"Manager timed out while coordinating agents.", [("error", "timeout")]⟩, mem, calls)
  | n + 1, msgs, mem, calls =>
    match provider msgs m.delegationDefs with
    | .error e => (.error e, mem, calls ++ [msgs])
    | .ok resp =>
      match resp.tool_call with
      | some tc =>
        if pyStartsWith tc.name "delegate_to_" then
          let agent_name := pyReplace tc.name "delegate_to_" ""
          match m.sub_agents.lookup agent_name with
          | some worker =>
            let tool_id := tc.id.getD "call_mgr"
            let worker_content :=
              match worker.process_query provider (tc.args.lookup "query") with
              | .ok pr => pr.1.content
              | .error e => "Error from " ++ agent_name ++ ": " ++ e.message
            managerLoop m count provider n
              (msgs ++ [assistantCallMsg tool_id tc.name (dumpsArgs tc.args),
                        toolResultMsg tool_id tc.name
                          ("Output from " ++ agent_name ++ ":\n" ++ worker_content)])
              mem (calls ++ [msgs])
          | none =>
            managerLoop m count provider n
              (msgs ++ [toolResultMsg (tc.id.getD "call_mgr") tc.name
                          ("Error: Agent " ++ agent_name ++ " does not exist.")])
              mem (calls ++ [msgs])
        else
          if strTruthy resp.content then
            (.ok ⟨resp.content.getD "", []⟩,
             TokenBufferMemory.add_message count mem "assistant" (resp.content.getD ""),
             calls ++ [msgs])
          else
            managerLoop m count provider n msgs mem (calls ++ [msgs])
      | none =>
        if strTruthy resp.content then
          (.ok ⟨resp.content.getD "", []⟩,
           TokenBufferMemory.add_message count mem "assistant" (resp.content.getD ""),
           calls ++ [msgs])
        else
          managerLoop m count provider n msgs mem (calls ++ [msgs])

/-- `ManagerAgent.process_query`: save the user query to memory, build the
provider-visible conversation from the enhanced system prompt plus the
entire memory history, then run the loop. -/
def ManagerAgent.process_query (m : ManagerAgent) (count : String → Nat)
    (provider : Provider) (user_query : String) (mem0 : TokenBufferMemory) :
    (Except PyExc AgentResponse) × TokenBufferMemory × List (List ChatMsg) :=
  let mem1 := TokenBufferMemory.add_message count mem0 "user" user_query
  let msgs := systemMsg m.enhancedPrompt ::
    mem1.messages.map (fun h => ({ role := h.role, content := some h.content } : ChatMsg))
  managerLoop m count provider 5 msgs mem1 []

/-! ### Single-turn lemmas for the loops -/

theorem workerLoop_call_known (a : SingleAgent) (provider : Provider) (n : Nat)
    (msgs : List ChatMsg) (calls : List (List ChatMsg)) (r : LLMResponse) (tc : ToolCallReq)
    (t : ToolImpl) (hr : provider msgs a.toolDefs = Except.ok r)
    (htc : r.tool_call = some tc) (hl : toolLookup a.tools tc.name = some t) :
    workerLoop a provider (n + 1) msgs calls =
      workerLoop a provider n
        (msgs ++ [assistantCallMsg (tc.id.getD "call_default") tc.name (dumpsArgs tc.args),
                  toolResultMsg (tc.id.getD "call_default") tc.name
                    (match t.run tc.args with
                      | .ok raw => serializeResult raw
                      | .error e => "Tool Execution Failed: " ++ e)])
        (calls ++ [msgs]) := by
  rw [workerLoop, hr]
  dsimp only
  rw [htc]
  dsimp only
  rw [hl]

theorem workerLoop_call_unknown (a : SingleAgent) (provider : Provider) (n : Nat)
    (msgs : List ChatMsg) (calls : List (List ChatMsg)) (r : LLMResponse) (tc : ToolCallReq)
    (hr : provider msgs a.toolDefs = Except.ok r)
    (htc : r.tool_call = some tc) (hl : toolLookup a.tools tc.name = none) :
    workerLoop a provider (n + 1) msgs calls =
      workerLoop a provider n
        (msgs ++ [toolResultMsg (tc.id.getD "call_default") tc.name
                    ("❌ Unknown tool '" ++ tc.name ++ "'")])
        (calls ++ [msgs]) := by
  rw [workerLoop, hr]
  dsimp only
  rw [htc]
  dsimp only
  rw [hl]

theorem workerLoop_final (a : SingleAgent) (provider : Provider) (n : Nat)
    (msgs : List ChatMsg) (calls : List (List ChatMsg)) (r : LLMResponse)
    (hr : provider msgs a.toolDefs = Except.ok r)
    (htc : r.tool_call = none) (hc : strTruthy r.content = true) :
    workerLoop a provider (n + 1) msgs calls =
      Except.ok (⟨r.content.getD "", [("final_answer", r.content.getD "")]⟩, calls ++ [msgs]) := by
  rw [workerLoop, hr]
  dsimp only
  rw [htc]
  dsimp only
  rw [hc]
  simp

theorem workerLoop_skip (a : SingleAgent) (provider : Provider) (n : Nat)
    (msgs : List ChatMsg) (calls : List (List ChatMsg)) (r : LLMResponse)
    (hr : provider msgs a.toolDefs = Except.ok r)
    (htc : r.tool_call = none) (hc : strTruthy r.content = false) :
    workerLoop a provider (n + 1) msgs calls =
      workerLoop a provider n msgs (calls ++ [msgs]) := by
  rw [workerLoop, hr]
  dsimp only
  rw [htc]
  dsimp only
  rw [hc]
  simp

/-! ### Claim C5 -/

theorem workerLoop_no_final (a : SingleAgent) (provider : Provider)
    (hprov : ∀ msgs, ∃ r, provider msgs a.toolDefs = Except.ok r ∧
      (r.tool_call.isSome = true ∨ strTruthy r.content = false)) :
    ∀ (n : Nat) (msgs : List ChatMsg) (calls : List (List ChatMsg)),
      ∃ calls2, workerLoop a provider n msgs calls =
          Except.ok (⟨"Agent timed out.", [("error", "Timeout")]⟩, calls2) ∧
        calls2.length = calls.length + n := by
  intro n
  induction n with
  | zero => intro msgs calls; exact ⟨calls, rfl, by simp⟩
  | succ n ih =>
    intro msgs calls
    obtain ⟨r, hr, hcase⟩ := hprov msgs
    rcases htc : r.tool_call with _ | tc
    · have hc : strTruthy r.content = false := by
        rcases hcase with h | h
        · rw [htc] at h; simp at h
        · exact h
      rw [workerLoop_skip a provider n msgs calls r hr htc hc]
      obtain ⟨calls2, h1, h2⟩ := ih msgs (calls ++ [msgs])
      exact ⟨calls2, h1, by rw [h2]; simp; omega⟩
    · cases hl : toolLookup a.tools tc.name with
      | some t =>
        rw [workerLoop_call_known a provider n msgs calls r tc t hr htc hl]
        obtain ⟨calls2, h1, h2⟩ := ih _ (calls ++ [msgs])
        exact ⟨calls2, h1, by rw [h2]; simp; omega⟩
      | none =>
        rw [workerLoop_call_unknown a provider n msgs calls r tc hr htc hl]
        obtain ⟨calls2, h1, h2⟩ := ih _ (calls ++ [msgs])
        exact ⟨calls2, h1, by rw [h2]; simp; omega⟩

/-- **C5.** A worker run against a backend that never yields final content
(every response carries a tool call, or its content is empty) makes exactly
5 provider calls — never a 6th — and returns the fixed timeout
`AgentResult`; each of the 5 turns performs exactly one provider call (the
trace gains exactly one conversation per turn). -/
theorem worker_c5 (a : SingleAgent) (provider : Provider) (uq : Option String)
    (hprov : ∀ msgs, ∃ r, provider msgs a.toolDefs = Except.ok r ∧
      (r.tool_call.isSome = true ∨ strTruthy r.content = false)) :
    ∃ calls, a.process_query provider uq =
        Except.ok (⟨"Agent timed out.", [("error", "Timeout")]⟩, calls) ∧
      calls.length = 5 := by
  obtain ⟨calls2, h1, h2⟩ :=
    workerLoop_no_final a provider hprov 5 [systemMsg a.system_prompt, userMsg uq] []
  exact ⟨calls2, h1, by simpa using h2⟩

/-- Worker agent used in agent-loop witnesses: no tools. -/
def agentW : SingleAgent := ⟨"worker", "You are a helpful assistant.", []⟩

/-- Backend that always asks for a tool call. -/
def providerAllCalls : Provider :=
  fun _ _ => Except.ok ⟨none, some ⟨"get_stock_price", [("ticker", "AAPL")], none⟩⟩

/-- Witness for C5: the always-tool-calling backend times out after exactly
5 calls. -/
theorem worker_c5_witness :
    ∃ calls, SingleAgent.process_query agentW providerAllCalls (some "hi") =
        Except.ok (⟨"Agent timed out.", [("error", "Timeout")]⟩, calls) ∧
      calls.length = 5 :=
  worker_c5 agentW providerAllCalls (some "hi")
    (fun _ => ⟨⟨none, some ⟨"get_stock_price", [("ticker", "AAPL")], none⟩⟩, rfl, Or.inl rfl⟩)

/-! ### Claim C6 -/

/-- **C6.** With a registered tool `t` (under name `tc.name`) and a scripted
backend whose first response is a call to that tool and whose second
response is final content, the worker makes exactly 2 backend calls; the
conversation of the second call is the first conversation extended by the
assistant-turn record of the call followed by the tool-result record whose
content is the tool's output — serialized to text when the raw result is
not a string, and a descriptive `Tool Execution Failed:` message (instead
of a propagated exception) when the tool raises. -/
theorem worker_c6 (a : SingleAgent) (provider : Provider) (uq : Option String)
    (t : ToolImpl) (tn cid ans : String) (args : List (String × String))
    (hlook : toolLookup a.tools tn = some t)
    (hfirst : provider [systemMsg a.system_prompt, userMsg uq] a.toolDefs =
      Except.ok ⟨none, some ⟨tn, args, some cid⟩⟩)
    (hsecond : provider
        ([systemMsg a.system_prompt, userMsg uq] ++
          [assistantCallMsg cid tn (dumpsArgs args),
           toolResultMsg cid tn
             (match t.run args with
               | .ok raw => serializeResult raw
               | .error e => "Tool Execution Failed: " ++ e)]) a.toolDefs =
      Except.ok ⟨some ans, none⟩)
    (hans : strTruthy (some ans) = true) :
    a.process_query provider uq =
      Except.ok (⟨ans, [("final_answer", ans)]⟩,
        [[systemMsg a.system_prompt, userMsg uq],
         [systemMsg a.system_prompt, userMsg uq] ++
           [assistantCallMsg cid tn (dumpsArgs args),
            toolResultMsg cid tn
              (match t.run args with
                | .ok raw => serializeResult raw
                | .error e => "Tool Execution Failed: " ++ e)]]) := by
  show workerLoop a provider (4 + 1) [systemMsg a.system_prompt, userMsg uq] [] = _
  rw [workerLoop_call_known a provider 4 [systemMsg a.system_prompt, userMsg uq] []
    ⟨none, some ⟨tn, args, some cid⟩⟩ ⟨tn, args, some cid⟩ t hfirst rfl hlook]
  simp only [Option.getD_some, List.nil_append]
  rw [show (4 : Nat) = 3 + 1 from rfl]
  rw [workerLoop_final a provider 3 _ _ ⟨some ans, none⟩ hsecond rfl hans]
  simp

/-- Tool used in the C6 witness: it raises, exercising the
tool-failure-recorded branch. -/
def boomTool : ToolImpl :=
  ⟨"get_stock_price", fun _ => Except.error "division by zero"⟩

/-- Worker agent with the raising tool registered. -/
def agentC6 : SingleAgent := ⟨"worker", "You are a helpful assistant.", [boomTool]⟩

/-- Scripted backend for the C6 witness: a call to the registered tool
first, final content once a tool-result record is present. -/
def providerC6 : Provider := fun msgs _ =>
  if msgs.length == 2 then
    Except.ok ⟨none, some ⟨"get_stock_price", [("ticker", "AAPL")], some "call_1"⟩⟩
  else Except.ok ⟨some "done", none⟩

/-- Witness for C6 at the concrete script (the raising tool produces the
descriptive failure message in the tool-result record). -/
theorem worker_c6_witness :
    SingleAgent.process_query agentC6 providerC6 (some "price?") =
      Except.ok (⟨"done", [("final_answer", "done")]⟩,
        [[systemMsg agentC6.system_prompt, userMsg (some "price?")],
         [systemMsg agentC6.system_prompt, userMsg (some "price?")] ++
           [assistantCallMsg "call_1" "get_stock_price"
              (dumpsArgs [("ticker", "AAPL")]),
            toolResultMsg "call_1" "get_stock_price"
              (match boomTool.run [("ticker", "AAPL")] with
                | .ok raw => serializeResult raw
                | .error e => "Tool Execution Failed: " ++ e)]]) :=
  worker_c6 agentC6 providerC6 (some "price?") boomTool "get_stock_price" "call_1" "done"
    [("ticker", "AAPL")] rfl rfl rfl rfl

theorem managerLoop_delegate_known (m : ManagerAgent) (count : String → Nat)
    (provider : Provider) (n : Nat) (msgs : List ChatMsg) (mem : TokenBufferMemory)
    (calls : List (List ChatMsg)) (r : LLMResponse) (tc : ToolCallReq) (w : SingleAgent)
    (hr : provider msgs m.delegationDefs = Except.ok r)
    (htc : r.tool_call = some tc)
    (hd : pyStartsWith tc.name "delegate_to_" = true)
    (hlk : m.sub_agents.lookup (pyReplace tc.name "delegate_to_" "") = some w) :
    managerLoop m count provider (n + 1) msgs mem calls =
      managerLoop m count provider n
        (msgs ++ [assistantCallMsg (tc.id.getD "call_mgr") tc.name (dumpsArgs tc.args),
                  toolResultMsg (tc.id.getD "call_mgr") tc.name
                    ("Output from " ++ pyReplace tc.name "delegate_to_" "" ++ ":\n" ++
                      (match w.process_query provider (tc.args.lookup "query") with
                        | .ok pr => pr.1.content
                        | .error e =>
                          "Error from " ++ pyReplace tc.name "delegate_to_" "" ++ ": " ++
                            e.message))])
        mem (calls ++ [msgs]) := by
  rw [managerLoop, hr]
  dsimp only
  rw [htc]
  dsimp only
  rw [hd]
  rw [if_pos rfl]
  rw [hlk]

theorem managerLoop_delegate_unknown (m : ManagerAgent) (count : String → Nat)
    (provider : Provider) (n : Nat) (msgs : List ChatMsg) (mem : TokenBufferMemory)
    (calls : List (List ChatMsg)) (r : LLMResponse) (tc : ToolCallReq)
    (hr : provider msgs m.delegationDefs = Except.ok r)
    (htc : r.tool_call = some tc)
    (hd : pyStartsWith tc.name "delegate_to_" = true)
    (hlk : m.sub_agents.lookup (pyReplace tc.name "delegate_to_" "") = none) :
    managerLoop m count provider (n + 1) msgs mem calls =
      managerLoop m count provider n
        (msgs ++ [toolResultMsg (tc.id.getD "call_mgr") tc.name
                    ("Error: Agent " ++ pyReplace tc.name "delegate_to_" "" ++
                      " does not exist.")])
        mem (calls ++ [msgs]) := by
  rw [managerLoop, hr]
  dsimp only
  rw [htc]
  dsimp only
  rw [hd]
  rw [if_pos rfl]
  rw [hlk]

theorem managerLoop_nondelegate_final (m : ManagerAgent) (count : String → Nat)
    (provider : Provider) (n : Nat) (msgs : List ChatMsg) (mem : TokenBufferMemory)
    (calls : List (List ChatMsg)) (r : LLMResponse) (tc : ToolCallReq)
    (hr : provider msgs m.delegationDefs = Except.ok r)
    (htc : r.tool_call = some tc)
    (hd : pyStartsWith tc.name "delegate_to_" = false)
    (hc : strTruthy r.content = true) :
    managerLoop m count provider (n + 1) msgs mem calls =
      (Except.ok ⟨r.content.getD "", []⟩,
       TokenBufferMemory.add_message count mem "assistant" (r.content.getD ""),
       calls ++ [msgs]) := by
  rw [managerLoop, hr]
  dsimp only
  rw [htc]
  dsimp only
  rw [hd]
  simp [hc]

theorem managerLoop_nondelegate_skip (m : ManagerAgent) (count : String → Nat)
    (provider : Provider) (n : Nat) (msgs : List ChatMsg) (mem : TokenBufferMemory)
    (calls : List (List ChatMsg)) (r : LLMResponse) (tc : ToolCallReq)
    (hr : provider msgs m.delegationDefs = Except.ok r)
    (htc : r.tool_call = some tc)
    (hd : pyStartsWith tc.name "delegate_to_" = false)
    (hc : strTruthy r.content = false) :
    managerLoop m count provider (n + 1) msgs mem calls =
      managerLoop m count provider n msgs mem (calls ++ [msgs]) := by
  rw [managerLoop, hr]
  dsimp only
  rw [htc]
  dsimp only
  rw [hd]
  simp [hc]

theorem managerLoop_nocall_final (m : ManagerAgent) (count : String → Nat)
    (provider : Provider) (n : Nat) (msgs : List ChatMsg) (mem : TokenBufferMemory)
    (calls : List (List ChatMsg)) (r : LLMResponse)
    (hr : provider msgs m.delegationDefs = Except.ok r)
    (htc : r.tool_call = none) (hc : strTruthy r.content = true) :
    managerLoop m count provider (n + 1) msgs mem calls =
      (Except.ok ⟨r.content.getD "", []⟩,
       TokenBufferMemory.add_message count mem "assistant" (r.content.getD ""),
       calls ++ [msgs]) := by
  rw [managerLoop, hr]
  dsimp only
  rw [htc]
  dsimp only
  rw [hc]
  simp

theorem managerLoop_nocall_skip (m : ManagerAgent) (count : String → Nat)
    (provider : Provider) (n : Nat) (msgs : List ChatMsg) (mem : TokenBufferMemory)
    (calls : List (List ChatMsg)) (r : LLMResponse)
    (hr : provider msgs m.delegationDefs = Except.ok r)
    (htc : r.tool_call = none) (hc : strTruthy r.content = false) :
    managerLoop m count provider (n + 1) msgs mem calls =
      managerLoop m count provider n msgs mem (calls ++ [msgs]) := by
  rw [managerLoop, hr]
  dsimp only
  rw [htc]
  dsimp only
  rw [hc]
  simp

/-! ### Claim C7 -/

theorem managerLoop_memory (m : ManagerAgent) (count : String → Nat) (provider : Provider)
    (mem : TokenBufferMemory) :
    ∀ (n : Nat) (msgs : List ChatMsg) (calls : List (List ChatMsg)),
      ((managerLoop m count provider n msgs mem calls).2.1 = mem ∧
        ((managerLoop m count provider n msgs mem calls).1 =
            Except.ok ⟨"Manager timed out while coordinating agents.", [("error", "timeout")]⟩ ∨
          ∃ e, (managerLoop m count provider n msgs mem calls).1 = Except.error e)) ∨
      (∃ c, (managerLoop m count provider n msgs mem calls).1 = Except.ok ⟨c, []⟩ ∧
        strTruthy (some c) = true ∧
        (managerLoop m count provider n msgs mem calls).2.1 =
          TokenBufferMemory.add_message count mem "assistant" c) := by
  intro n
  induction n with
  | zero => intro msgs calls; left; exact ⟨rfl, Or.inl rfl⟩
  | succ n ih =>
    intro msgs calls
    cases hr : provider msgs m.delegationDefs with
    | error e =>
      rw [managerLoop, hr]
      left
      exact ⟨rfl, Or.inr ⟨e, rfl⟩⟩
    | ok resp =>
      have truthyContent : ∀ (h : strTruthy resp.content = true),
          strTruthy (some (resp.content.getD "")) = true := by
        intro h
        cases hco : resp.content with
        | none => rw [hco] at h; simp [strTruthy_none] at h
        | some s => rw [hco] at h; simpa using h
      rcases htc : resp.tool_call with _ | tc
      · cases hc : strTruthy resp.content with
        | false =>
          rw [managerLoop_nocall_skip m count provider n msgs mem calls resp hr htc hc]
          exact ih msgs (calls ++ [msgs])
        | true =>
          rw [managerLoop_nocall_final m count provider n msgs mem calls resp hr htc hc]
          right
          exact ⟨resp.content.getD "", rfl, truthyContent hc, rfl⟩
      · cases hd : pyStartsWith tc.name "delegate_to_" with
        | true =>
          cases hlk : m.sub_agents.lookup (pyReplace tc.name "delegate_to_" "") with
          | some w =>
            rw [managerLoop_delegate_known m count provider n msgs mem calls resp tc w
              hr htc hd hlk]
            exact ih _ (calls ++ [msgs])
          | none =>
            rw [managerLoop_delegate_unknown m count provider n msgs mem calls resp tc
              hr htc hd hlk]
            exact ih _ (calls ++ [msgs])
        | false =>
          cases hc : strTruthy resp.content with
          | false =>
            rw [managerLoop_nondelegate_skip m count provider n msgs mem calls resp tc
              hr htc hd hc]
            exact ih msgs (calls ++ [msgs])
          | true =>
            rw [managerLoop_nondelegate_final m count provider n msgs mem calls resp tc
              hr htc hd hc]
            right
            exact ⟨resp.content.getD "", rfl, truthyContent hc, rfl⟩

/-- **C7.** Every `ManagerAgent.process_query` run appends the incoming user
query to the shared memory before the loop; an assistant turn is appended
if and only if the loop ends with final provider content (and it equals
that content) — a timeout or a propagated exception leaves the memory with
just the user entry added.  Concretely, answering `"Hello"` immediately
with `"Hi"` leaves memory `[user "Hello", assistant "Hi"]` in order. -/
theorem manager_c7 (m : ManagerAgent) (count : String → Nat) (provider : Provider)
    (user_query : String) (mem0 : TokenBufferMemory) :
    (((m.process_query count provider user_query mem0).2.1 =
        TokenBufferMemory.add_message count mem0 "user" user_query ∧
      ((m.process_query count provider user_query mem0).1 =
          Except.ok ⟨"Manager timed out while coordinating agents.", [("error", "timeout")]⟩ ∨
        ∃ e, (m.process_query count provider user_query mem0).1 = Except.error e)) ∨
     (∃ c, (m.process_query count provider user_query mem0).1 = Except.ok ⟨c, []⟩ ∧
       strTruthy (some c) = true ∧
       (m.process_query count provider user_query mem0).2.1 =
         TokenBufferMemory.add_message count
           (TokenBufferMemory.add_message count mem0 "user" user_query) "assistant" c)) ∧
    ((ManagerAgent.process_query ⟨"Manager", [], "You are a manager."⟩ String.length
        (fun _ _ => Except.ok ⟨some "Hi", none⟩) "Hello"
        (TokenBufferMemory.init 4096)).2.1.messages =
      [⟨"user", "Hello"⟩, ⟨"assistant", "Hi"⟩]) := by
  constructor
  · exact managerLoop_memory m count provider
      (TokenBufferMemory.add_message count mem0 "user" user_query) 5 _ []
  · rfl

/-! ### Claim C9 -/

/-- Manager with no sub-agents, for concrete runs. -/
def mgrC9 : ManagerAgent := ⟨"Manager", [], "You are a manager."⟩

/-- Backend whose response populates BOTH `content` and `tool_call`, with a
capability name that does not carry the delegation prefix. -/
def providerC9 : Provider :=
  fun _ _ => Except.ok ⟨some "both-populated", some ⟨"not_delegation", [], none⟩⟩

/-- **C9 counterexample.** A response with both fields populated whose
capability name lacks the `delegate_to_` prefix makes the manager fall
through to the content check: the populated content IS returned as the
final answer and recorded in memory — contradicting "the content of that
response is never returned as a final answer or recorded". -/
theorem both_fields_counterexample :
    (ManagerAgent.process_query mgrC9 String.length providerC9 "q"
        (TokenBufferMemory.init 4096)).1 = Except.ok ⟨"both-populated", []⟩ ∧
    (ManagerAgent.process_query mgrC9 String.length providerC9 "q"
        (TokenBufferMemory.init 4096)).2.1.messages =
      [⟨"user", "q"⟩, ⟨"assistant", "both-populated"⟩] := ⟨rfl, rfl⟩

/-- **C9 (amended).** A provider response with both `content` and
`tool_call` populated is treated as a capability call by the worker loop
unconditionally (the tool branch runs and the loop continues; the content
is never returned), and by the manager loop whenever the capability name
starts with `delegate_to_`; but a manager-side call whose name lacks the
`delegate_to_` prefix falls through to the content check, and its truthy
content is returned (and recorded) as the final answer. -/
theorem both_fields_amended :
    (∀ (a : SingleAgent) (provider : Provider) (n : Nat) (msgs : List ChatMsg)
        (calls : List (List ChatMsg)) (r : LLMResponse) (tc : ToolCallReq),
      provider msgs a.toolDefs = Except.ok r → r.tool_call = some tc →
      workerLoop a provider (n + 1) msgs calls =
        (match toolLookup a.tools tc.name with
          | some t =>
            workerLoop a provider n
              (msgs ++ [assistantCallMsg (tc.id.getD "call_default") tc.name (dumpsArgs tc.args),
                        toolResultMsg (tc.id.getD "call_default") tc.name
                          (match t.run tc.args with
                            | .ok raw => serializeResult raw
                            | .error e => "Tool Execution Failed: " ++ e)])
              (calls ++ [msgs])
          | none =>
            workerLoop a provider n
              (msgs ++ [toolResultMsg (tc.id.getD "call_default") tc.name
                          ("❌ Unknown tool '" ++ tc.name ++ "'")])
              (calls ++ [msgs]))) ∧
    (∀ (m : ManagerAgent) (count : String → Nat) (provider : Provider) (n : Nat)
        (msgs : List ChatMsg) (mem : TokenBufferMemory) (calls : List (List ChatMsg))
        (r : LLMResponse) (tc : ToolCallReq),
      provider msgs m.delegationDefs = Except.ok r → r.tool_call = some tc →
      pyStartsWith tc.name "delegate_to_" = true →
      ∃ msgs2, managerLoop m count provider (n + 1) msgs mem calls =
          managerLoop m count provider n (msgs ++ msgs2) mem (calls ++ [msgs])) ∧
    (∀ (m : ManagerAgent) (count : String → Nat) (provider : Provider) (n : Nat)
        (msgs : List ChatMsg) (mem : TokenBufferMemory) (calls : List (List ChatMsg))
        (r : LLMResponse) (tc : ToolCallReq) (c : String),
      provider msgs m.delegationDefs = Except.ok r → r.tool_call = some tc →
      pyStartsWith tc.name "delegate_to_" = false →
      r.content = some c → strTruthy (some c) = true →
      managerLoop m count provider (n + 1) msgs mem calls =
        (Except.ok ⟨c, []⟩, TokenBufferMemory.add_message count mem "assistant" c,
         calls ++ [msgs])) := by
  refine ⟨?_, ?_, ?_⟩
  · intro a provider n msgs calls r tc hr htc
    cases hl : toolLookup a.tools tc.name with
    | some t => rw [workerLoop_call_known a provider n msgs calls r tc t hr htc hl]
    | none => rw [workerLoop_call_unknown a provider n msgs calls r tc hr htc hl]
  · intro m count provider n msgs mem calls r tc hr htc hd
    cases hlk : m.sub_agents.lookup (pyReplace tc.name "delegate_to_" "") with
    | some w =>
      exact ⟨_, managerLoop_delegate_known m count provider n msgs mem calls r tc w
        hr htc hd hlk⟩
    | none =>
      exact ⟨_, managerLoop_delegate_unknown m count provider n msgs mem calls r tc
        hr htc hd hlk⟩
  · intro m count provider n msgs mem calls r tc c hr htc hd hcc hstr
    have hc : strTruthy r.content = true := by rw [hcc]; exact hstr
    have := managerLoop_nondelegate_final m count provider n msgs mem calls r tc hr htc hd hc
    rw [hcc] at this
    simpa using this

/-- Backend used in the amended-C9 witness: both fields populated, tool
name unregistered for the worker. -/
def providerBoth : Provider :=
  fun _ _ => Except.ok ⟨some "ignored", some ⟨"get_stock_price", [("ticker", "AAPL")], none⟩⟩

/-- Witness for the amended C9: the worker continues past a both-populated
response (unknown-tool branch for a toolless agent), and the manager
returns the content of a both-populated non-delegation response. -/
theorem both_fields_amended_witness :
    workerLoop agentW providerBoth (0 + 1) [systemMsg "s", userMsg (some "u")] [] =
      workerLoop agentW providerBoth 0
        ([systemMsg "s", userMsg (some "u")] ++
          [toolResultMsg "call_default" "get_stock_price"
            ("❌ Unknown tool '" ++ "get_stock_price" ++ "'")])
        ([] ++ [[systemMsg "s", userMsg (some "u")]]) ∧
    managerLoop mgrC9 String.length providerC9 (0 + 1) [systemMsg "x"]
        (TokenBufferMemory.init 4096) [] =
      (Except.ok ⟨"both-populated", []⟩,
       TokenBufferMemory.add_message String.length (TokenBufferMemory.init 4096)
         "assistant" "both-populated",
       [] ++ [[systemMsg "x"]]) := by
  constructor
  · have h := both_fields_amended.1 agentW providerBoth 0
      [systemMsg "s", userMsg (some "u")] []
      ⟨some "ignored", some ⟨"get_stock_price", [("ticker", "AAPL")], none⟩⟩
      ⟨"get_stock_price", [("ticker", "AAPL")], none⟩ rfl rfl
    simpa using h
  · have h := both_fields_amended.2.2 mgrC9 String.length providerC9 0 [systemMsg "x"]
      (TokenBufferMemory.init 4096) []
      ⟨some "both-populated", some ⟨"not_delegation", [], none⟩⟩
      ⟨"not_delegation", [], none⟩ "both-populated" rfl rfl rfl rfl rfl
    simpa using h

/-! ### Claim C10 -/

theorem managerLoop_all_nondelegate (m : ManagerAgent) (count : String → Nat)
    (provider : Provider)
    (hprov : ∀ msgs, ∃ r tc, provider msgs m.delegationDefs = Except.ok r ∧
      r.tool_call = some tc ∧ pyStartsWith tc.name "delegate_to_" = false ∧
      strTruthy r.content = false) :
    ∀ (n : Nat) (msgs : List ChatMsg) (mem : TokenBufferMemory)
      (calls : List (List ChatMsg)),
      managerLoop m count provider n msgs mem calls =
        (Except.ok ⟨"Manager timed out while coordinating agents.", [("error", "timeout")]⟩,
         mem, calls ++ List.replicate n msgs) := by
  intro n
  induction n with
  | zero => intro msgs mem calls; simp [managerLoop]
  | succ n ih =>
    intro msgs mem calls
    obtain ⟨r, tc, hr, htc, hd, hc⟩ := hprov msgs
    rw [managerLoop_nondelegate_skip m count provider n msgs mem calls r tc hr htc hd hc]
    rw [ih msgs mem (calls ++ [msgs])]
    simp [List.replicate_succ]

/-- **C10.** In the manager loop, a capability call whose name does not
start with `delegate_to_` appends no record of any kind (the conversation
and memory pass to the next turn unchanged) and silently consumes the turn;
when every turn's response is such a call with no (truthy) content, the
loop returns the timeout result after 5 turns, each of the 5 provider
calls seeing the identical initial conversation. -/
theorem manager_c10 (m : ManagerAgent) (count : String → Nat) (provider : Provider)
    (hprov : ∀ msgs, ∃ r tc, provider msgs m.delegationDefs = Except.ok r ∧
      r.tool_call = some tc ∧ pyStartsWith tc.name "delegate_to_" = false ∧
      strTruthy r.content = false) :
    (∀ (n : Nat) (msgs : List ChatMsg) (mem : TokenBufferMemory)
        (calls : List (List ChatMsg)) (r : LLMResponse) (tc : ToolCallReq),
      provider msgs m.delegationDefs = Except.ok r → r.tool_call = some tc →
      pyStartsWith tc.name "delegate_to_" = false → strTruthy r.content = false →
      managerLoop m count provider (n + 1) msgs mem calls =
        managerLoop m count provider n msgs mem (calls ++ [msgs])) ∧
    (∀ (user_query : String) (mem0 : TokenBufferMemory),
      m.process_query count provider user_query mem0 =
        (Except.ok ⟨"Manager timed out while coordinating agents.", [("error", "timeout")]⟩,
         TokenBufferMemory.add_message count mem0 "user" user_query,
         List.replicate 5
           (systemMsg m.enhancedPrompt ::
             (TokenBufferMemory.add_message count mem0 "user" user_query).messages.map
               (fun h => ({ role := h.role, content := some h.content } : ChatMsg))))) := by
  constructor
  · intro n msgs mem calls r tc hr htc hd hc
    exact managerLoop_nondelegate_skip m count provider n msgs mem calls r tc hr htc hd hc
  · intro user_query mem0
    have h := managerLoop_all_nondelegate m count provider hprov 5
      (systemMsg m.enhancedPrompt ::
        (TokenBufferMemory.add_message count mem0 "user" user_query).messages.map
          (fun h => ({ role := h.role, content := some h.content } : ChatMsg)))
      (TokenBufferMemory.add_message count mem0 "user" user_query) []
    simpa [ManagerAgent.process_query] using h

/-- Manager with no sub-agents for the C10 witness. -/
def mgrC10 : ManagerAgent := ⟨"Manager", [], "You are a manager."⟩

/-- Backend that always answers with a non-delegation capability call and
no content. -/
def providerC10 : Provider :=
  fun _ _ => Except.ok ⟨none, some ⟨"weird_tool", [], none⟩⟩

/-- Witness for C10: the non-delegation-calling backend times out after 5
identical manager calls, memory keeping only the user entry. -/
theorem manager_c10_witness :
    ManagerAgent.process_query mgrC10 String.length providerC10 "q"
        (TokenBufferMemory.init 4096) =
      (Except.ok ⟨"Manager timed out while coordinating agents.", [("error", "timeout")]⟩,
       TokenBufferMemory.add_message String.length (TokenBufferMemory.init 4096) "user" "q",
       List.replicate 5
         (systemMsg mgrC10.enhancedPrompt ::
           (TokenBufferMemory.add_message String.length (TokenBufferMemory.init 4096)
              "user" "q").messages.map
             (fun h => ({ role := h.role, content := some h.content } : ChatMsg)))) :=
  (manager_c10 mgrC10 String.length providerC10
    (fun _ => ⟨⟨none, some ⟨"weird_tool", [], none⟩⟩, ⟨"weird_tool", [], none⟩,
      rfl, rfl, rfl, rfl⟩)).2 "q" (TokenBufferMemory.init 4096)
